import Mathlib

/-!
Verification of the core compute logic of the marketing-feed-analytics
dashboard: the intensity classifier, the calendar heat-map builder, the
synthetic timeline generator, and the date-range filter.

The JavaScript sources are embedded shallowly:

* JS `Date` host-API calls are embedded by their ECMA-262 semantics with the
  UTC timezone: a date value is the number of whole days since 1970-01-01
  (`epochDay`, the standard civil-from-days formula), `getDay` is
  `(epochDay + 4) mod 7` (1970-01-01 was a Thursday), and
  `new Date(year, month + 1, 0).getDate()` is the Gregorian day count of the
  0-indexed `month` (`daysInMonthJS`).
* JS numbers are modelled as rationals; `Math.floor` is `Int.floor`,
  `Math.ceil` on a non-negative quotient is ceiling division, `Math.round`
  is `fun x => Int.floor (x + 1/2)`, and `x % 1` on a non-negative `x` is
  `Int.fract`.
* `Math.random()` and the `Math.sin`-based per-date hash are kept abstract:
  the generators are parameterised over the stream of raw values they
  consume, and the theorems hold for every stream.
-/

namespace MarketingFeed

/-! ### Calendar arithmetic: embedding of the JS `Date` host API (UTC) -/

/-- Days since 1970-01-01 of the civil date `(y, m, d)` with 1-based month
`m`, for years `y ≥ 1`.  This is the standard days-from-civil formula and
embeds the value `new Date(...)` stores (divided by 86400000 ms). -/
def epochDay (y m d : Nat) : Int :=
  let y2 := if m ≤ 2 then y - 1 else y
  let era := y2 / 400
  let yoe := y2 - era * 400
  let mp := (m + 9) % 12
  let doy := (153 * mp + 2) / 5 + d - 1
  let doe := yoe * 365 + yoe / 4 - yoe / 100 + doy
  (era * 146097 + doe : Int) - 719468

/-- Embeds `Date.prototype.getDay()` (0 = Sunday) for a date holding epoch
day `t`: 1970-01-01 was a Thursday (= 4). -/
def jsGetDay (t : Int) : Nat := ((t + 4) % 7).toNat

/-- Gregorian leap-year rule, as implemented by the JS `Date` API. -/
def isLeapYear (y : Nat) : Bool :=
  decide ((y % 4 = 0 ∧ y % 100 ≠ 0) ∨ y % 400 = 0)

/-- Embeds `new Date(year, month + 1, 0).getDate()` for a 0-indexed
`month`: the day number of the last day of `month`, i.e. the day count of
that month of that year. -/
def daysInMonthJS (year month : Nat) : Nat :=
  if month = 1 then (if isLeapYear year then 29 else 28)
  else if month = 3 ∨ month = 5 ∨ month = 8 ∨ month = 10 then 30
  else 31

/-- Embeds `String(n).padStart(2, "0")` for the two-digit date fields. -/
def pad2 (n : Nat) : String :=
  if n < 10 then "0" ++ toString n else toString n

/-- The ISO `YYYY-MM-DD` key built by the heat-map code:
`year + "-" + pad(month + 1) + "-" + pad(day)` with 0-indexed `month`. -/
def dateKey (year month day : Nat) : String :=
  toString year ++ "-" ++ pad2 (month + 1) ++ "-" ++ pad2 day

/-! ### Intensity classifiers

Two variants of `getIntensityLevel` appear in the repository.  The heat-map
engine file (src/unnamed/part_000, lines 526-533) uses OR thresholds; the
`website/js/app.js` file (lines 368-375) combines the high tier with AND and
classes every other active day as medium. -/

/-- `getIntensityLevel` from src/unnamed/part_000 (lines 526-533). -/
def getIntensityLevel (posts campaigns : Nat) (revenue : ℚ) : String :=
  let totalEvents := posts + campaigns
  if totalEvents = 0 then "none"
  else if 3 ≤ totalEvents ∨ revenue > 5000 then "high"
  else if 2 ≤ totalEvents ∨ revenue > 2500 then "medium"
  else "low"

/-- `getIntensityLevel` from src/website/js/app.js (lines 368-375). -/
def getIntensityLevel_app (posts campaigns : Nat) (revenue : ℚ) : String :=
  let totalEvents := posts + campaigns
  if totalEvents = 0 then "none"
  else if 3 ≤ totalEvents ∧ revenue > 5000 then "high"
  else if 1 ≤ totalEvents then "medium"
  else "low"

/-- Helper: both the part_000 classifier and the spec agree that the
`none` tier is exactly the absence of events. -/
theorem getIntensityLevel_eq_none_iff (p c : Nat) (rev : ℚ) :
    getIntensityLevel p c rev = "none" ↔ p + c = 0 := by
  unfold getIntensityLevel
  dsimp only
  split_ifs with h1 h2 h3
  · simp [h1]
  · constructor
    · intro h; exact absurd h (by decide)
    · intro h; exact absurd h h1
  · constructor
    · intro h; exact absurd h (by decide)
    · intro h; exact absurd h h1
  · constructor
    · intro h; exact absurd h (by decide)
    · intro h; exact absurd h h1

/-- C1 counterexample: the `app.js` variant of the classifier does not
implement the stated policy — on (posts, campaigns, revenue) = (3, 0, 0)
it returns "medium", while the claim requires "high". -/
theorem claim1_counterexample :
    getIntensityLevel_app 3 0 0 = "medium" ∧ getIntensityLevel_app 3 0 0 ≠ "high" := by
  constructor
  · rfl
  · decide

/-- C1 (amended): the part_000 classifier `getIntensityLevel` implements
exactly the stated policy — "none" iff totalEvents = 0, else "high" iff
totalEvents ≥ 3 or revenue > 5000, else "medium" iff totalEvents ≥ 2 or
revenue > 2500, else "low" — and in particular the four boundary values
hold; the `app.js` variant deviates from it. -/
theorem claim1_theorem (posts campaigns : Nat) (revenue : ℚ) (hrev : 0 ≤ revenue) :
    (getIntensityLevel posts campaigns revenue = "none" ↔ posts + campaigns = 0) ∧
    (getIntensityLevel posts campaigns revenue = "high" ↔
      posts + campaigns ≠ 0 ∧ (3 ≤ posts + campaigns ∨ revenue > 5000)) ∧
    (getIntensityLevel posts campaigns revenue = "medium" ↔
      posts + campaigns ≠ 0 ∧ ¬(3 ≤ posts + campaigns ∨ revenue > 5000) ∧
        (2 ≤ posts + campaigns ∨ revenue > 2500)) ∧
    (getIntensityLevel posts campaigns revenue = "low" ↔
      posts + campaigns ≠ 0 ∧ ¬(3 ≤ posts + campaigns ∨ revenue > 5000) ∧
        ¬(2 ≤ posts + campaigns ∨ revenue > 2500)) ∧
    getIntensityLevel 3 0 0 = "high" ∧
    getIntensityLevel 0 1 6000 = "high" ∧
    getIntensityLevel 1 1 0 = "medium" ∧
    getIntensityLevel 1 0 0 = "low" := by
  refine ⟨?_, ?_, ?_, ?_, by decide, by decide, by decide, by decide⟩ <;>
    · unfold getIntensityLevel
      dsimp only
      split_ifs with h1 h2 h3 <;>
        simp_all +decide

/-- C1 witness: the amended theorem instantiated at (3, 0, 0). -/
theorem claim1_witness :
    (0 : ℚ) ≤ 0 ∧
    ((getIntensityLevel 3 0 0 = "none" ↔ 3 + 0 = 0) ∧
     (getIntensityLevel 3 0 0 = "high" ↔
       3 + 0 ≠ 0 ∧ (3 ≤ 3 + 0 ∨ (0 : ℚ) > 5000)) ∧
     (getIntensityLevel 3 0 0 = "medium" ↔
       3 + 0 ≠ 0 ∧ ¬(3 ≤ 3 + 0 ∨ (0 : ℚ) > 5000) ∧ (2 ≤ 3 + 0 ∨ (0 : ℚ) > 2500)) ∧
     (getIntensityLevel 3 0 0 = "low" ↔
       3 + 0 ≠ 0 ∧ ¬(3 ≤ 3 + 0 ∨ (0 : ℚ) > 5000) ∧ ¬(2 ≤ 3 + 0 ∨ (0 : ℚ) > 2500)) ∧
     getIntensityLevel 3 0 0 = "high" ∧
     getIntensityLevel 0 1 6000 = "high" ∧
     getIntensityLevel 1 1 0 = "medium" ∧
     getIntensityLevel 1 0 0 = "low") :=
  ⟨le_refl 0, claim1_theorem 3 0 0 (le_refl 0)⟩

/-! ### Date-range filter state and the custom-range apply handler -/

/-- A calendar date as read from a populated date input (1-based month). -/
structure CivilDate where
  year : Nat
  month : Nat
  day : Nat
deriving DecidableEq

/-- Embeds the millisecond value of `new Date("YYYY-MM-DD")` (UTC midnight). -/
def dateMs (d : CivilDate) : Int := epochDay d.year d.month d.day * 86400000

/-- The observable outcome of one click on the custom-range apply button:
the value of `currentDateRange` afterwards, the alert raised (if any), and
whether `populateRawDataTable()` was invoked. -/
structure ApplyResult where
  currentDateRange : Nat
  alertMessage : Option String
  tableRepopulated : Bool
deriving DecidableEq

/-- Embeds the custom date-range apply handler of `setupDateFilters`
(app.js / part_000 lines 159-177).  An empty date input reads as the empty
string, which is falsy; a populated one parses as a `CivilDate`.  For two
populated bounds the handler sets
`currentDateRange = Math.ceil(Math.abs(end - start) / 86400000)` and
re-populates the raw-data table; otherwise it alerts and changes nothing. -/
def applyCustomRange (startDate endDate : Option CivilDate) (currentRange : Nat) :
    ApplyResult :=
  match startDate, endDate with
  | some s, some e =>
    let diffTime := (dateMs e - dateMs s).natAbs
    let diffDays := (diffTime + (86400000 - 1)) / 86400000
    { currentDateRange := diffDays, alertMessage := none, tableRepopulated := true }
  | _, _ =>
    { currentDateRange := currentRange
      alertMessage := some "Please select both start and end dates"
      tableRepopulated := false }

/-- C3 counterexample: applying the custom range 2026-01-01 .. 2026-01-10
does not set `currentDateRange` to 10 — the handler computes
`Math.ceil((end - start) / 86400000) = 9`. -/
theorem claim3_counterexample :
    (applyCustomRange (some ⟨2026, 1, 1⟩) (some ⟨2026, 1, 10⟩) 30).currentDateRange ≠ 10 := by
  decide

/-- C3 (amended): with start 2026-01-01 and end 2026-01-10 the custom
date-range apply handler assigns `currentDateRange = 9`, the ceiling of the
difference of the two bounds in days (which excludes one endpoint), not the
10-day both-bounds-inclusive window length. -/
theorem claim3_theorem (prior : Nat) :
    (applyCustomRange (some ⟨2026, 1, 1⟩) (some ⟨2026, 1, 10⟩) prior).currentDateRange = 9 := by
  rfl

/-- C8: running the custom-range apply handler with a missing bound raises
the validation alert, does not filter, leaves `currentDateRange` at its
prior value and does not repopulate the raw-data table. -/
theorem claim8_theorem (startDate endDate : Option CivilDate) (prior : Nat)
    (h : startDate = none ∨ endDate = none) :
    applyCustomRange startDate endDate prior =
      { currentDateRange := prior
        alertMessage := some "Please select both start and end dates"
        tableRepopulated := false } := by
  rcases h with h | h
  · subst h; cases endDate <;> rfl
  · subst h; cases startDate <;> rfl

/-- C8 witness: the handler applied with an absent end bound. -/
theorem claim8_witness :
    ((some ⟨2026, 1, 1⟩ : Option CivilDate) = none ∨ (none : Option CivilDate) = none) ∧
    applyCustomRange (some ⟨2026, 1, 1⟩) none 30 =
      { currentDateRange := 30
        alertMessage := some "Please select both start and end dates"
        tableRepopulated := false } :=
  ⟨Or.inr rfl, claim8_theorem (some ⟨2026, 1, 1⟩) none 30 (Or.inr rfl)⟩

/-! ### The synthetic daily timeline (data.js / part_000, generateTimelineData) -/

/-- One row of the daily timeline.  The JS object stores the date as the
ISO rendering `date.toISOString().split("T")[0]`; here it is kept as the
underlying epoch-day number. -/
structure DayRecord where
  date : Int
  revenue : ℚ
  orders : Int
  sessions : Int
  visitors : Int
  pageViews : Int
  shopifySessions : Int
  topSources : String
  topCountries : String
  posts : Nat
  campaigns : Nat
  hasEvent : Bool
deriving DecidableEq

/-- Embeds `Math.round`. -/
def jsRound (x : ℚ) : Int := ⌊x + 1 / 2⌋

/-- Embeds `generateTimelineData` (data.js lines 148-195, part_000 lines
905-952).  The loop runs `i = 59, 58, ..., 0` and each iteration draws six
`Math.random()` values in order (revenue, sessions, hasPost, hasCampaign,
topSources, topCountries); the whole sequence of draws is the parameter
`r`, so iteration `k = 59 - i` consumes `r (6*k) .. r (6*k+5)`. -/
def generateTimelineData (r : Nat → ℚ) : List DayRecord :=
  (List.range 60).map (fun k =>
    let i : Nat := 59 - k
    let date : Int := epochDay 2026 1 29 - (i : Int)
    let dayOfWeek := jsGetDay date
    let baseRevenue : ℚ := if dayOfWeek = 0 ∨ dayOfWeek = 6 then 600 else 800
    let revenue := baseRevenue + r (6 * k) * 400
    let baseSessions : ℚ := if dayOfWeek = 0 ∨ dayOfWeek = 6 then 180 else 250
    let sessions := ⌊baseSessions + r (6 * k + 1) * 100⌋
    let hasPost := decide (r (6 * k + 2) > 85 / 100)
    let hasCampaign := decide (r (6 * k + 3) > 95 / 100)
    { date := date
      revenue := (jsRound (revenue * 100) : ℚ) / 100
      orders := ⌊revenue / 35⌋
      sessions := sessions
      visitors := ⌊(sessions : ℚ) * (85 / 100)⌋
      pageViews := jsRound ((sessions : ℚ) * (32 / 10))
      shopifySessions := ⌊(sessions : ℚ) * (6 / 10)⌋
      topSources :=
        (["Google, Direct, Instagram", "Instagram, Facebook, Direct",
          "Direct, Google, TikTok"].getD (⌊r (6 * k + 4) * 3⌋).toNat "")
      topCountries :=
        (["United States, India, Canada", "India, UAE, United States",
          "United States, UK, Australia"].getD (⌊r (6 * k + 5) * 3⌋).toNat "")
      posts := if hasPost then 1 else 0
      campaigns := if hasCampaign then 1 else 0
      hasEvent := hasPost || hasCampaign })

/-- The generated timeline always has exactly 60 records. -/
theorem generateTimelineData_length (r : Nat → ℚ) :
    (generateTimelineData r).length = 60 := by
  unfold generateTimelineData
  rw [List.length_map, List.length_range]

/-- The dates of the generated timeline do not depend on the random draws:
record `k` holds the epoch day of 2026-01-29 minus `59 - k`. -/
theorem generateTimelineData_map_date (r : Nat → ℚ) :
    (generateTimelineData r).map DayRecord.date =
      (List.range 60).map (fun (k : Nat) => epochDay 2026 1 29 - 59 + (k : Int)) := by
  unfold generateTimelineData
  rw [List.map_map]
  refine List.map_congr_left (fun k hk => ?_)
  rw [List.mem_range] at hk
  show epochDay 2026 1 29 - (↑(59 - k) : Int) = epochDay 2026 1 29 - 59 + (k : Int)
  omega

/-- C6: for every random stream, `generateTimelineData` (end 2026-01-29,
window 60) yields exactly 60 records whose dates are strictly increasing
consecutive calendar days with no duplicates, the last being 2026-01-29. -/
theorem claim6_theorem : ∀ r : Nat → ℚ,
    (generateTimelineData r).length = 60 ∧
    (generateTimelineData r).map DayRecord.date =
      (List.range 60).map (fun (k : Nat) => epochDay 2026 1 29 - 59 + (k : Int)) ∧
    List.Chain' (fun a b => b.date = a.date + 1) (generateTimelineData r) ∧
    List.Pairwise (fun a b => a.date < b.date) (generateTimelineData r) ∧
    (generateTimelineData r).getLast?.map DayRecord.date = some (epochDay 2026 1 29) ∧
    ((generateTimelineData r).map DayRecord.date).Nodup := by
  intro r
  have hmap := generateTimelineData_map_date r
  refine ⟨generateTimelineData_length r, hmap, ?_, ?_, ?_, ?_⟩
  · rw [← @List.chain'_map Int DayRecord (fun x y : Int => y = x + 1)
      DayRecord.date (generateTimelineData r), hmap,
      List.chain'_map, show (60 : Nat) = Nat.succ 59 from rfl, List.chain'_range_succ]
    intro m hm
    push_cast
    ring
  · rw [← @List.pairwise_map DayRecord Int DayRecord.date (fun x y : Int => x < y)
      (generateTimelineData r), hmap]
    decide
  · rw [← List.getLast?_map, hmap]
    decide
  · rw [hmap]
    decide

/-- C7: every generated day record has `hasEvent` equal to
(posts > 0 or campaigns > 0), and the classifier assigns the tier "none"
to it exactly when `hasEvent` is false. -/
theorem claim7_theorem (r : Nat → ℚ) (rec : DayRecord)
    (hrec : rec ∈ generateTimelineData r) :
    (rec.hasEvent = true ↔ (0 < rec.posts ∨ 0 < rec.campaigns)) ∧
    (getIntensityLevel rec.posts rec.campaigns rec.revenue = "none" ↔
      rec.hasEvent = false) := by
  unfold generateTimelineData at hrec
  rw [List.mem_map] at hrec
  obtain ⟨k, -, rfl⟩ := hrec
  dsimp only
  by_cases hp : r (6 * k + 2) > 85 / 100 <;>
    by_cases hc : r (6 * k + 3) > 95 / 100 <;>
      simp [hp, hc, getIntensityLevel_eq_none_iff]

/-- C7 witness: the first record of the timeline generated from the
constant-zero stream. -/
theorem claim7_witness :
    ((generateTimelineData (fun _ => 0)).get
        ⟨0, by rw [generateTimelineData_length]; omega⟩ ∈
      generateTimelineData (fun _ => 0)) ∧
    (((generateTimelineData (fun _ => 0)).get
          ⟨0, by rw [generateTimelineData_length]; omega⟩).hasEvent = true ↔
        (0 < ((generateTimelineData (fun _ => 0)).get
          ⟨0, by rw [generateTimelineData_length]; omega⟩).posts ∨
         0 < ((generateTimelineData (fun _ => 0)).get
          ⟨0, by rw [generateTimelineData_length]; omega⟩).campaigns)) ∧
      (getIntensityLevel
          ((generateTimelineData (fun _ => 0)).get
            ⟨0, by rw [generateTimelineData_length]; omega⟩).posts
          ((generateTimelineData (fun _ => 0)).get
            ⟨0, by rw [generateTimelineData_length]; omega⟩).campaigns
          ((generateTimelineData (fun _ => 0)).get
            ⟨0, by rw [generateTimelineData_length]; omega⟩).revenue = "none" ↔
        ((generateTimelineData (fun _ => 0)).get
          ⟨0, by rw [generateTimelineData_length]; omega⟩).hasEvent = false) :=
  ⟨List.get_mem _ _ _, claim7_theorem (fun _ => 0) _ (List.get_mem _ _ _)⟩

/-! ### Date-range slicing of the timeline for display -/

/-- Embeds the raw-data table filter (app.js lines 515-551, part_000 lines
673-709): `timeline.slice(-n)` followed by `reverse()`.  For `n ≥ 1`, JS
`slice(-n)` copies the last `min(n, length)` elements in order; the copy is
then reversed for newest-first display. -/
def filterByRange (timeline : List DayRecord) (n : Nat) : List DayRecord :=
  (timeline.drop (timeline.length - n)).reverse

/-- C2: for an ascending-by-date timeline and any day count `n ≥ 1`, the
display filter returns exactly `min n (length timeline)` records, namely
the `n` most recent ones (the tail of the series, equivalently the first
`n` of the reversed series), ordered descending by date. -/
theorem claim2_theorem (timeline : List DayRecord) (n : Nat) (hn : 1 ≤ n)
    (hsorted : timeline.Pairwise (fun a b => a.date < b.date)) :
    (filterByRange timeline n).length = min n timeline.length ∧
    filterByRange timeline n = timeline.reverse.take n ∧
    (filterByRange timeline n).Pairwise (fun a b => b.date < a.date) := by
  refine ⟨?_, ?_, ?_⟩
  · unfold filterByRange
    rw [List.length_reverse, List.length_drop]
    omega
  · unfold filterByRange
    rw [List.take_reverse]
  · unfold filterByRange
    rw [List.pairwise_reverse]
    exact List.Pairwise.sublist (List.drop_sublist _ _) hsorted

/-- A day record with the given epoch day and zeroes elsewhere, used to
instantiate the timeline theorems on concrete inputs. -/
def sampleRecord (d : Int) : DayRecord :=
  { date := d, revenue := 0, orders := 0, sessions := 0, visitors := 0
    pageViews := 0, shopifySessions := 0, topSources := "", topCountries := ""
    posts := 0, campaigns := 0, hasEvent := false }

/-- C2 witness: the filter applied to a concrete two-day timeline with
window 1. -/
theorem claim2_witness :
    (1 ≤ 1 ∧
      List.Pairwise (fun a b : DayRecord => a.date < b.date)
        [sampleRecord 0, sampleRecord 1]) ∧
    ((filterByRange [sampleRecord 0, sampleRecord 1] 1).length =
        min 1 [sampleRecord 0, sampleRecord 1].length ∧
      filterByRange [sampleRecord 0, sampleRecord 1] 1 =
        [sampleRecord 0, sampleRecord 1].reverse.take 1 ∧
      (filterByRange [sampleRecord 0, sampleRecord 1] 1).Pairwise
        (fun a b => b.date < a.date)) :=
  ⟨⟨le_refl 1, by decide⟩,
    claim2_theorem [sampleRecord 0, sampleRecord 1] 1 (le_refl 1) (by decide)⟩

/-! ### Reference-level store model for the display slices (frame property)

JS arrays are reference values: `timeline.slice(-n)` allocates a fresh
array and the subsequent `reverse()` mutates that copy in place.  To state
that the stored timeline is untouched, arrays are modelled as cells of a
store addressed by allocation index. -/

/-- A store of JS arrays of day records, addressed by allocation order. -/
abbrev Store := List (List DayRecord)

/-- Reads the array held by reference `ref` (empty for a dangling ref). -/
def readArr (σ : Store) (ref : Nat) : List DayRecord := (σ[ref]?).getD []

/-- Allocates a new array, returning the extended store and its reference. -/
def allocArr (σ : Store) (a : List DayRecord) : Store × Nat := (σ ++ [a], σ.length)

/-- Overwrites the array held by reference `ref` in place. -/
def writeArr (σ : Store) (ref : Nat) (a : List DayRecord) : Store := σ.set ref a

/-- Embeds `arr.slice(-n)` for `n ≥ 1`: a fresh copy of the trailing
`min(n, length)` elements of the referenced array. -/
def sliceNegProg (σ : Store) (ref n : Nat) : Store × Nat :=
  allocArr σ ((readArr σ ref).drop ((readArr σ ref).length - n))

/-- Embeds `arr.reverse()`: reverses the referenced array in place. -/
def reverseInPlace (σ : Store) (ref : Nat) : Store :=
  writeArr σ ref (readArr σ ref).reverse

/-- The display computation of `populateRawDataTable` (app.js lines
515-551): `timeline.slice(-currentDateRange)` then in-place `reverse()`,
returning the final store together with the rows iterated for display. -/
def populateRawDataTableProg (σ : Store) (timelineRef n : Nat) :
    Store × List DayRecord :=
  let sliced := sliceNegProg σ timelineRef n
  let σ2 := reverseInPlace sliced.1 sliced.2
  (σ2, readArr σ2 sliced.2)

/-- The display computation of `populateShopifyTab` (app.js lines
498-499): `timeline.slice(-30).reverse()` for the last-30-days table. -/
def populateShopifyTabProg (σ : Store) (timelineRef : Nat) :
    Store × List DayRecord :=
  let sliced := sliceNegProg σ timelineRef 30
  let σ2 := reverseInPlace sliced.1 sliced.2
  (σ2, readArr σ2 sliced.2)

/-- After slicing and reversing the fresh copy, the original reference is
untouched. -/
theorem readArr_after_slice_reverse (σ : Store) (ref n : Nat)
    (h : ref < σ.length) :
    readArr (reverseInPlace (sliceNegProg σ ref n).1 (sliceNegProg σ ref n).2) ref =
      readArr σ ref := by
  unfold sliceNegProg allocArr reverseInPlace writeArr readArr
  rw [List.getElem?_set_ne (Nat.ne_of_lt h).symm, List.getElem?_append_left h]

/-- The rows read back from the reversed fresh copy are the pure filter of
the stored timeline. -/
theorem readArr_fresh_slice_reverse (σ : Store) (ref n : Nat) :
    readArr (reverseInPlace (sliceNegProg σ ref n).1 (sliceNegProg σ ref n).2)
        (sliceNegProg σ ref n).2 =
      filterByRange (readArr σ ref) n := by
  unfold sliceNegProg allocArr reverseInPlace writeArr readArr filterByRange
  simp

/-- C9: the two display slices leave the stored timeline unchanged — after
either operation the timeline reference still holds the same records in the
same order — and the displayed rows are exactly the pure `filterByRange`
of the stored timeline. -/
theorem claim9_theorem (σ : Store) (timelineRef n : Nat)
    (h : timelineRef < σ.length) :
    readArr (populateRawDataTableProg σ timelineRef n).1 timelineRef =
      readArr σ timelineRef ∧
    readArr (populateShopifyTabProg σ timelineRef).1 timelineRef =
      readArr σ timelineRef ∧
    (populateRawDataTableProg σ timelineRef n).2 =
      filterByRange (readArr σ timelineRef) n ∧
    (populateShopifyTabProg σ timelineRef).2 =
      filterByRange (readArr σ timelineRef) 30 :=
  ⟨readArr_after_slice_reverse σ timelineRef n h,
    readArr_after_slice_reverse σ timelineRef 30 h,
    readArr_fresh_slice_reverse σ timelineRef n,
    readArr_fresh_slice_reverse σ timelineRef 30⟩

/-- C9 witness: a store holding one singleton timeline. -/
theorem claim9_witness :
    (0 < ([[sampleRecord 5]] : Store).length) ∧
    (readArr (populateRawDataTableProg [[sampleRecord 5]] 0 7).1 0 =
        readArr [[sampleRecord 5]] 0 ∧
      readArr (populateShopifyTabProg [[sampleRecord 5]] 0).1 0 =
        readArr [[sampleRecord 5]] 0 ∧
      (populateRawDataTableProg [[sampleRecord 5]] 0 7).2 =
        filterByRange (readArr [[sampleRecord 5]] 0) 7 ∧
      (populateShopifyTabProg [[sampleRecord 5]] 0).2 =
        filterByRange (readArr [[sampleRecord 5]] 0) 30) :=
  ⟨by decide, claim9_theorem [[sampleRecord 5]] 0 7 (by decide)⟩

/-! ### Heat-map activity data and the month grid (part_000) -/

/-- A per-day activity record of the heat-map lookup. -/
structure Activity where
  posts : Nat
  campaigns : Nat
  revenue : ℚ
deriving DecidableEq

/-- Embeds the body of `generateMonthlyActivityData` (part_000 lines
502-524) for one day.  The date-seeded hash draws
`Math.abs(Math.sin(seed * c)) * 43758.5453`; the transcendental `Math.sin`
is kept abstract as the parameter `sinA`, so every theorem below holds for
every choice of it.  `x % 1` of the non-negative draw is `Int.fract`. -/
def activityFor (sinA : ℚ → ℚ) (year month day : Nat) : Activity :=
  let seed : ℚ := ((year * 10000 + month * 100 + day : Nat) : ℚ)
  let random1 := |sinA (seed * (129898 / 10000))| * (437585453 / 10000)
  let random2 := |sinA (seed * (78233 / 1000))| * (437585453 / 10000)
  let random3 := |sinA (seed * (45164 / 1000))| * (437585453 / 10000)
  { posts := (⌊Int.fract random1 * 4⌋).toNat
    campaigns := (⌊Int.fract random2 * 3⌋).toNat
    revenue := (((⌊Int.fract random3 * 8000⌋).toNat + 500 : Nat) : ℚ) }

/-- Embeds `generateMonthlyActivityData` (part_000 lines 502-524): an
activity map keyed by the ISO date string of each day of the month. -/
def generateMonthlyActivityData (sinA : ℚ → ℚ) (year month : Nat) :
    List (String × Activity) :=
  (List.range (daysInMonthJS year month)).map (fun j =>
    (dateKey year month (j + 1), activityFor sinA year month (j + 1)))

/-- One cell of the rendered calendar grid. -/
inductive Cell where
  | empty : Cell
  | day (dayNum : Nat) (dateStr : String) (intensity : String) : Cell
deriving DecidableEq

/-- Embeds `new Date(year, month, 1).getDay()`: the Sunday-first weekday
of the first of the (0-indexed) month. -/
def startingDayOfWeek (year month : Nat) : Nat :=
  jsGetDay (epochDay year (month + 1) 1)

/-- Embeds `activityMap[dateStr] || \x7b posts: 0, campaigns: 0, revenue: 0 \x7d`
(part_000 line 411): the looked-up record, or a zero-activity record when
the date is absent. -/
def dayActivity (activityMap : List (String × Activity)) (dateStr : String) :
    Activity :=
  (activityMap.lookup dateStr).getD ⟨0, 0, 0⟩

/-- Embeds the cell-producing part of `generateMonthView` (part_000 lines
384-428): leading empty cells up to the weekday of the 1st, then one
intensity-classified day cell per day of the month. -/
def generateMonthView (sinA : ℚ → ℚ) (year month : Nat) : List Cell :=
  let activityMap := generateMonthlyActivityData sinA year month
  List.replicate (startingDayOfWeek year month) Cell.empty ++
    (List.range (daysInMonthJS year month)).map (fun j =>
      let dateStr := dateKey year month (j + 1)
      let a := dayActivity activityMap dateStr
      Cell.day (j + 1) dateStr (getIntensityLevel a.posts a.campaigns a.revenue))

/-- Every month length produced by the JS Date embedding is at most 31. -/
theorem daysInMonthJS_le (year month : Nat) : daysInMonthJS year month ≤ 31 := by
  unfold daysInMonthJS
  split_ifs <;> omega

/-- The two-digit day rendering is injective on the day numbers that occur
in a month. -/
theorem pad2_inj31 : ∀ a < 32, ∀ b < 32, pad2 a = pad2 b → a = b := by decide

/-- ISO date keys of the same month are injective in the day. -/
theorem dateKey_inj (y m : Nat) {a b : Nat} (ha : a ≤ 31) (hb : b ≤ 31)
    (h : dateKey y m a = dateKey y m b) : a = b := by
  unfold dateKey at h
  have hdata := congrArg String.data h
  simp only [String.data_append, List.append_assoc, List.append_right_inj] at hdata
  exact pad2_inj31 a (by omega) b (by omega) (String.ext hdata)

/-- Association-list lookup over a keyed map of indices finds the value of
the looked-up index when the key function is injective on the index list. -/
theorem lookup_keyed_map {β : Type} (key : Nat → String) (val : Nat → β) :
    ∀ (l : List Nat) (d : Nat), d ∈ l → (∀ i ∈ l, key i = key d → i = d) →
      (l.map (fun j => (key j, val j))).lookup (key d) = some (val d) := by
  intro l
  induction l with
  | nil => intro d hd _; exact absurd hd (List.not_mem_nil d)
  | cons a t ih =>
    intro d hd hinj
    by_cases hk : key d = key a
    · have ha : a = d := hinj a (List.mem_cons_self a t) hk.symm
      subst ha
      simp [List.lookup]
    · have hdt : d ∈ t := by
        rcases List.mem_cons.mp hd with hda | hdt
        · exact absurd (by rw [hda]) hk
        · exact hdt
      have hbeq : (key d == key a) = false := beq_eq_false_iff_ne.mpr hk
      have hstep : ((a :: t).map (fun j => (key j, val j))).lookup (key d) =
          (t.map (fun j => (key j, val j))).lookup (key d) := by
        simp [List.lookup, hbeq]
      rw [hstep]
      exact ih d hdt (fun i hi hke => hinj i (List.mem_cons_of_mem a hi) hke)

/-- Floor of a fractional part scaled by 4 lands in 0..3. -/
theorem floor_fract_mul4_le (x : ℚ) : (⌊Int.fract x * 4⌋).toNat ≤ 3 := by
  rw [Int.toNat_le]
  have h1 : Int.fract x * 4 < 4 := by
    nlinarith [Int.fract_lt_one x, Int.fract_nonneg x]
  have h2 : ⌊Int.fract x * (4 : ℚ)⌋ < (4 : ℤ) := Int.floor_lt.mpr (by exact_mod_cast h1)
  omega

/-- Floor of a fractional part scaled by 3 lands in 0..2. -/
theorem floor_fract_mul3_le (x : ℚ) : (⌊Int.fract x * 3⌋).toNat ≤ 2 := by
  rw [Int.toNat_le]
  have h1 : Int.fract x * 3 < 3 := by
    nlinarith [Int.fract_lt_one x, Int.fract_nonneg x]
  have h2 : ⌊Int.fract x * (3 : ℚ)⌋ < (3 : ℤ) := Int.floor_lt.mpr (by exact_mod_cast h1)
  omega

/-- Floor of a fractional part scaled by 8000 lands in 0..7999. -/
theorem floor_fract_mul8000_le (x : ℚ) : (⌊Int.fract x * 8000⌋).toNat ≤ 7999 := by
  rw [Int.toNat_le]
  have h1 : Int.fract x * 8000 < 8000 := by
    nlinarith [Int.fract_lt_one x, Int.fract_nonneg x]
  have h2 : ⌊Int.fract x * (8000 : ℚ)⌋ < (8000 : ℤ) := Int.floor_lt.mpr (by exact_mod_cast h1)
  omega

/-- The generated per-day activity always satisfies the documented ranges:
0-3 posts, 0-2 campaigns, 500-8500 revenue. -/
theorem activityFor_bounds (sinA : ℚ → ℚ) (year month day : Nat) :
    (activityFor sinA year month day).posts ≤ 3 ∧
    (activityFor sinA year month day).campaigns ≤ 2 ∧
    500 ≤ (activityFor sinA year month day).revenue ∧
    (activityFor sinA year month day).revenue ≤ 8500 := by
  unfold activityFor
  dsimp only
  refine ⟨floor_fract_mul4_le _, floor_fract_mul3_le _, ?_, ?_⟩
  · exact_mod_cast Nat.le_add_left 500 _
  · have h := floor_fract_mul8000_le
      (|sinA (((year * 10000 + month * 100 + day : Nat) : ℚ) * (45164 / 1000))| *
        (437585453 / 10000))
    exact_mod_cast (by omega :
      (⌊Int.fract (|sinA (((year * 10000 + month * 100 + day : Nat) : ℚ) *
        (45164 / 1000))| * (437585453 / 10000)) * 8000⌋).toNat + 500 ≤ 8500)

/-- C10: for every month the activity map contains an entry for every day
1..daysInMonth, every entry satisfies 0 ≤ posts ≤ 3, 0 ≤ campaigns ≤ 2 and
500 ≤ revenue ≤ 8500, and consequently the zero-activity fallback of the
month view is never taken for an in-month date: `dayActivity` returns the
stored entry itself. -/
theorem claim10_theorem (sinA : ℚ → ℚ) (year month : Nat) (hm : month < 12)
    (day : Nat) (hd1 : 1 ≤ day) (hd2 : day ≤ daysInMonthJS year month) :
    (generateMonthlyActivityData sinA year month).lookup (dateKey year month day) =
      some (activityFor sinA year month day) ∧
    dayActivity (generateMonthlyActivityData sinA year month)
        (dateKey year month day) = activityFor sinA year month day ∧
    (activityFor sinA year month day).posts ≤ 3 ∧
    (activityFor sinA year month day).campaigns ≤ 2 ∧
    500 ≤ (activityFor sinA year month day).revenue ∧
    (activityFor sinA year month day).revenue ≤ 8500 := by
  have hn := daysInMonthJS_le year month
  have hlookup : (generateMonthlyActivityData sinA year month).lookup
      (dateKey year month day) = some (activityFor sinA year month day) := by
    have hmap : generateMonthlyActivityData sinA year month =
        ((List.range (daysInMonthJS year month)).map (fun j => j + 1)).map
          (fun j => (dateKey year month j, activityFor sinA year month j)) := by
      unfold generateMonthlyActivityData
      rw [List.map_map]
      rfl
    rw [hmap]
    apply lookup_keyed_map
    · rw [List.mem_map]
      exact ⟨day - 1, by rw [List.mem_range]; omega, by omega⟩
    · intro i hi hkey
      rw [List.mem_map] at hi
      obtain ⟨j, hj, rfl⟩ := hi
      rw [List.mem_range] at hj
      exact dateKey_inj year month (by omega) (by omega) hkey
  have hbounds := activityFor_bounds sinA year month day
  refine ⟨hlookup, ?_, hbounds.1, hbounds.2.1, hbounds.2.2.1, hbounds.2.2.2⟩
  unfold dayActivity
  rw [hlookup]
  rfl

/-- C10 witness: the activity map for January 2026 at day 1. -/
theorem claim10_witness :
    (0 < 12 ∧ 1 ≤ 1 ∧ 1 ≤ daysInMonthJS 2026 0) ∧
    ((generateMonthlyActivityData (fun _ => 0) 2026 0).lookup (dateKey 2026 0 1) =
        some (activityFor (fun _ => 0) 2026 0 1) ∧
      dayActivity (generateMonthlyActivityData (fun _ => 0) 2026 0)
          (dateKey 2026 0 1) = activityFor (fun _ => 0) 2026 0 1 ∧
      (activityFor (fun _ => 0) 2026 0 1).posts ≤ 3 ∧
      (activityFor (fun _ => 0) 2026 0 1).campaigns ≤ 2 ∧
      500 ≤ (activityFor (fun _ => 0) 2026 0 1).revenue ∧
      (activityFor (fun _ => 0) 2026 0 1).revenue ≤ 8500) :=
  ⟨⟨by decide, le_refl 1, by decide⟩,
    claim10_theorem (fun _ => 0) 2026 0 (by decide) 1 (le_refl 1) (by decide)⟩

/-- Within one month the epoch-day value is linear in the day of month. -/
theorem epochDay_day (y mo d : Nat) (hd : 1 ≤ d) :
    epochDay y mo d = epochDay y mo 1 + (d : Int) - 1 := by
  unfold epochDay
  dsimp only
  split_ifs <;> omega

/-- The month-length table with the leap-year test spelled out as a
proposition. -/
theorem daysInMonthJS_eq (year month : Nat) : daysInMonthJS year month =
    if month = 1 then
      (if (year % 4 = 0 ∧ year % 100 ≠ 0) ∨ year % 400 = 0 then 29 else 28)
    else if month = 3 ∨ month = 5 ∨ month = 8 ∨ month = 10 then 30 else 31 := by
  unfold daysInMonthJS isLeapYear
  by_cases h : ((year % 4 = 0 ∧ year % 100 ≠ 0) ∨ year % 400 = 0) <;> simp [h]

set_option maxHeartbeats 1000000 in
/-- Cross-check of the two calendar embeddings: the distance in epoch days
from the first of a month to the first of the next month equals the month
length given by the leap-year table, for every year ≥ 1. -/
theorem epochDay_month_length (year month : Nat) (hy : 1 ≤ year) (hm : month < 12) :
    epochDay (if month = 11 then year + 1 else year)
        (if month = 11 then 1 else month + 2) 1 -
      epochDay year (month + 1) 1 = (daysInMonthJS year month : Int) := by
  rw [daysInMonthJS_eq]
  interval_cases month <;>
    · norm_num
      unfold epochDay
      dsimp only
      simp only [Nat.add_sub_cancel]
      split_ifs <;> omega

/-- C4: the month grid is exactly `startingDayOfWeek year month` leading
empty cells (the Sunday-first weekday of the 1st) followed by exactly
`daysInMonthJS year month` non-empty day cells in day order; the day count
matches the epoch-day distance to the next month for every year, February
has 29 cells in 2024 and 28 in 2026, and day `d` sits at grid column
`(startingDayOfWeek + d - 1) mod 7`, which is the weekday of that date. -/
theorem claim4_theorem (sinA : ℚ → ℚ) (year month : Nat)
    (hy : 1 ≤ year) (hm : month < 12) :
    (generateMonthView sinA year month).length =
      startingDayOfWeek year month + daysInMonthJS year month ∧
    (∀ i, i < startingDayOfWeek year month →
      (generateMonthView sinA year month)[i]? = some Cell.empty) ∧
    (∀ j, j < daysInMonthJS year month →
      ∃ intensity,
        (generateMonthView sinA year month)[startingDayOfWeek year month + j]? =
          some (Cell.day (j + 1) (dateKey year month (j + 1)) intensity)) ∧
    daysInMonthJS 2024 1 = 29 ∧
    daysInMonthJS 2026 1 = 28 ∧
    (epochDay (if month = 11 then year + 1 else year)
        (if month = 11 then 1 else month + 2) 1 -
      epochDay year (month + 1) 1 = (daysInMonthJS year month : Int)) ∧
    (∀ day, 1 ≤ day → day ≤ daysInMonthJS year month →
      (startingDayOfWeek year month + day - 1) % 7 =
        jsGetDay (epochDay year (month + 1) day)) := by
  refine ⟨?_, ?_, ?_, by decide, by decide,
    epochDay_month_length year month hy hm, ?_⟩
  · unfold generateMonthView
    dsimp only
    rw [List.length_append, List.length_replicate, List.length_map, List.length_range]
  · intro i hi
    unfold generateMonthView
    dsimp only
    rw [List.getElem?_append_left (by rw [List.length_replicate]; exact hi)]
    simp [List.getElem?_replicate, hi]
  · intro j hj
    refine ⟨getIntensityLevel
      (dayActivity (generateMonthlyActivityData sinA year month)
        (dateKey year month (j + 1))).posts
      (dayActivity (generateMonthlyActivityData sinA year month)
        (dateKey year month (j + 1))).campaigns
      (dayActivity (generateMonthlyActivityData sinA year month)
        (dateKey year month (j + 1))).revenue, ?_⟩
    unfold generateMonthView
    dsimp only
    rw [List.getElem?_append_right (by rw [List.length_replicate]; omega)]
    rw [List.length_replicate, Nat.add_sub_cancel_left, List.getElem?_map,
      List.getElem?_range hj]
    rfl
  · intro day hd1 hd2
    have hlin := epochDay_day year (month + 1) day hd1
    unfold startingDayOfWeek jsGetDay
    rw [hlin]
    omega

/-- C4 witness: the grid of February 2024. -/
theorem claim4_witness :
    (1 ≤ 2024 ∧ 1 < 12) ∧
    ((generateMonthView (fun _ => 0) 2024 1).length =
        startingDayOfWeek 2024 1 + daysInMonthJS 2024 1 ∧
      (∀ i, i < startingDayOfWeek 2024 1 →
        (generateMonthView (fun _ => 0) 2024 1)[i]? = some Cell.empty) ∧
      (∀ j, j < daysInMonthJS 2024 1 →
        ∃ intensity,
          (generateMonthView (fun _ => 0) 2024 1)[startingDayOfWeek 2024 1 + j]? =
            some (Cell.day (j + 1) (dateKey 2024 1 (j + 1)) intensity)) ∧
      daysInMonthJS 2024 1 = 29 ∧
      daysInMonthJS 2026 1 = 28 ∧
      (epochDay (if (1 : Nat) = 11 then 2024 + 1 else 2024)
          (if (1 : Nat) = 11 then 1 else 1 + 2) 1 -
        epochDay 2024 (1 + 1) 1 = (daysInMonthJS 2024 1 : Int)) ∧
      (∀ day, 1 ≤ day → day ≤ daysInMonthJS 2024 1 →
        (startingDayOfWeek 2024 1 + day - 1) % 7 =
          jsGetDay (epochDay 2024 (1 + 1) day))) :=
  ⟨⟨by decide, by decide⟩, claim4_theorem (fun _ => 0) 2024 1 (by decide) (by decide)⟩

/-- C5: each day cell of the month grid is annotated with the intensity of
the activity-map entry for its ISO date when the lookup succeeds, and with
the intensity of the zero record — tier "none" — when the date is absent
from the lookup. -/
theorem claim5_theorem (sinA : ℚ → ℚ) (year month j : Nat)
    (hj : j < daysInMonthJS year month) :
    (generateMonthView sinA year month)[startingDayOfWeek year month + j]? =
      some (Cell.day (j + 1) (dateKey year month (j + 1))
        (match (generateMonthlyActivityData sinA year month).lookup
            (dateKey year month (j + 1)) with
          | some a => getIntensityLevel a.posts a.campaigns a.revenue
          | none => getIntensityLevel 0 0 0)) ∧
    getIntensityLevel 0 0 0 = "none" := by
  constructor
  · unfold generateMonthView
    dsimp only
    rw [List.getElem?_append_right (by rw [List.length_replicate]; omega)]
    rw [List.length_replicate, Nat.add_sub_cancel_left, List.getElem?_map,
      List.getElem?_range hj]
    unfold dayActivity
    cases hcase : (generateMonthlyActivityData sinA year month).lookup
        (dateKey year month (j + 1)) <;>
      simp [hcase]
  · rfl

/-- C5 witness: the first day cell of January 2026. -/
theorem claim5_witness :
    (0 < daysInMonthJS 2026 0) ∧
    ((generateMonthView (fun _ => 0) 2026 0)[startingDayOfWeek 2026 0 + 0]? =
        some (Cell.day (0 + 1) (dateKey 2026 0 (0 + 1))
          (match (generateMonthlyActivityData (fun _ => 0) 2026 0).lookup
              (dateKey 2026 0 (0 + 1)) with
            | some a => getIntensityLevel a.posts a.campaigns a.revenue
            | none => getIntensityLevel 0 0 0)) ∧
      getIntensityLevel 0 0 0 = "none") :=
  ⟨by decide, claim5_theorem (fun _ => 0) 2026 0 0 (by decide)⟩

end MarketingFeed
